import Mathlib

/-!
Shallow embedding of the two report generators of the rhacs-image-versions
repository (`generate-cves-by-image.py` and `generate-cves-by-nodes.py`):
the cluster-label parsing regex, the UBI metadata resolution chain, the
per-cluster CVE aggregation, and the CSV report pipelines, together with
theorems settling the specification claims about them.
-/

/- ---------------------------------------------------------------------
   The cluster-label regex, shared by both scripts:

     CLUSTER_INFO_REGEX = r"([^\W_]+)(?:[\W_]+([^\W_]+)(?:[\W_]+(.*))?)?$"

   applied with `re.search`.  The regex engine is embedded directly: each
   greedy quantifier hands candidate prefixes to its continuation longest
   first (backtracking), optional groups prefer the present branch, `$`
   matches at the end of the subject or just before one trailing newline,
   `.` matches any character except a newline, and `re.search` tries
   successive start positions left to right.  Python's `\w` is modelled on
   its ASCII fragment (letters, digits, underscore).
   --------------------------------------------------------------------- -/

/-- The regex class `[^\W_]`: a word character that is not an underscore. -/
def wordChar (c : Char) : Bool := c.isAlphanum

/-- The regex class `[\W_]`: a non-word character or an underscore — the
exact complement of `wordChar`. -/
def sepChar (c : Char) : Bool := !(wordChar c)

/-- All splits `(a, b)` of a list with `a ++ b = t`, longest `a` first: the
order in which a greedy quantifier hands candidate prefixes to its
continuation while backtracking. -/
def splitsG : List Char → List (List Char × List Char)
  | [] => [([], [])]
  | c :: cs => ((splitsG cs).map fun q => (c :: q.1, q.2)) ++ [([], c :: cs)]

/-- Python's `$` with MULTILINE off: matches at the end of the subject or
just before a single trailing newline. -/
def dollar : List Char → Bool
  | [] => true
  | [c] => c == '\n'
  | _ => false

/-- `(.*)$` — group 3 of CLUSTER_INFO_REGEX followed by the anchor: greedy
`.` (which does not match a newline), then `$`. -/
def matchG3 (t : List Char) : Option (List Char) :=
  (splitsG t).findSome? fun q =>
    if q.1.all (fun c => !(c == '\n')) && dollar q.2 then some q.1 else none

/-- `(?:[\W_]+(.*))?$` — the optional part after group 2: the present
branch is preferred (greedy), otherwise the anchor must hold directly.
Returns `some g3?` on a match, where `g3?` is Python's group 3. -/
def matchTailG3 (t : List Char) : Option (Option (List Char)) :=
  match (splitsG t).findSome? (fun q =>
      if !q.1.isEmpty && q.1.all sepChar then matchG3 q.2 else none) with
  | some d => some (some d)
  | none => if dollar t then some none else none

/-- `(?:[\W_]+([^\W_]+)(?:[\W_]+(.*))?)?$` — the optional part after group
1, returning `(group2, group3?)` when the present branch matches. -/
def matchOpt2Dollar (t : List Char) :
    Option (Option (List Char × Option (List Char))) :=
  match (splitsG t).findSome? (fun q =>
      if !q.1.isEmpty && q.1.all sepChar then
        (splitsG q.2).findSome? (fun r =>
          if !r.1.isEmpty && r.1.all wordChar then
            (matchTailG3 r.2).map (fun g3 => (r.1, g3))
          else none)
      else none) with
  | some g => some (some g)
  | none => if dollar t then some none else none

/-- The whole CLUSTER_INFO_REGEX matched at one start position. -/
def matchClusterAt (t : List Char) :
    Option (List Char × Option (List Char × Option (List Char))) :=
  (splitsG t).findSome? fun q =>
    if !q.1.isEmpty && q.1.all wordChar then
      (matchOpt2Dollar q.2).map fun g => (q.1, g)
    else none

/-- `re.search`: try successive start positions left to right. -/
def clusterSearch : List Char → Option (List Char × Option (List Char × Option (List Char)))
  | [] => matchClusterAt []
  | c :: cs =>
    match matchClusterAt (c :: cs) with
    | some g => some g
    | none => clusterSearch cs

/-- The three groups of a successful match, with Python's `None` groups as
`none` (group 1 is always set on a successful match). -/
structure ClusterGroups where
  g1 : String
  g2 : Option String
  g3 : Option String
deriving DecidableEq

/-- `re.search(CLUSTER_INFO_REGEX, s)`, `none` when the match fails. -/
def clusterInfoSearch (s : String) : Option ClusterGroups :=
  match clusterSearch s.data with
  | none => none
  | some (n, none) => some ⟨String.mk n, none, none⟩
  | some (n, some (e, g3)) => some ⟨String.mk n, some (String.mk e), g3.map String.mk⟩

/-- The try/except block of `generate-cves-by-nodes.py` lines 115-125:
`clusterName` was initialised to the raw cluster name (line 109) and is
overwritten only when group 1 matched; `clusterEnvironment` and
`clusterDescriptor` start as `""` and are overwritten only when their
group matched; a failed search raises `AttributeError` on `.group`, which
the bare `except` swallows, keeping the defaults. -/
def parseClusterNode (raw : String) : String × String × String :=
  match clusterInfoSearch raw with
  | none => (raw, "", "")
  | some g => (g.g1, g.g2.getD "", g.g3.getD "")

/-- The try/except block of `generate-cves-by-image.py` lines 134-144: the
same parse, but the local variable `clusterName` is never initialised in
the iteration — on a failed search it keeps whatever value the previous
loop iteration left in it (`prev`), and is unbound (`none`) when no
earlier iteration assigned it. -/
def parseClusterImage (prev : Option String) (raw : String) :
    Option String × String × String :=
  match clusterInfoSearch raw with
  | none => (prev, "", "")
  | some g => (some g.g1, g.g2.getD "", g.g3.getD "")

/-- True when the list is empty or starts with a word character (used to
express that a separator run in a decomposition is maximal). -/
def headIsWord : List Char → Bool
  | [] => true
  | c :: _ => wordChar c

/-- True when the list is empty or starts with a separator character (used
to express that a word run in a decomposition is maximal). -/
def headIsSep : List Char → Bool
  | [] => true
  | c :: _ => sepChar c

/-- The splits of `xs ++ ys` whose prefix is a strict prefix of `xs`,
longest first (the tail of `splitsG (xs ++ ys)` past the split at `xs`). -/
def spsTail : List Char → List Char → List (List Char × List Char)
  | [], _ => []
  | x :: xs, ys => ((spsTail xs ys).map fun q => (x :: q.1, q.2)) ++ [([], x :: xs ++ ys)]

theorem splitsG_append (xs ys : List Char) :
    splitsG (xs ++ ys) =
      ((splitsG ys).map fun q => (xs ++ q.1, q.2)) ++ spsTail xs ys := by
  induction xs with
  | nil => simp [spsTail]
  | cons x xs ih =>
    simp [splitsG, spsTail, ih, List.map_map, Function.comp_def]

theorem mem_splitsG {t : List Char} {q : List Char × List Char}
    (h : q ∈ splitsG t) : q.1 ++ q.2 = t := by
  induction t generalizing q with
  | nil => simp [splitsG] at h; simp [h]
  | cons c cs ih =>
    simp only [splitsG, List.mem_append, List.mem_map, List.mem_singleton] at h
    rcases h with ⟨r, hr, rfl⟩ | rfl
    · simpa using ih hr
    · rfl

theorem splitsG_concat (t : List Char) :
    ∃ l, splitsG t = l ++ [([], t)] ∧ ∀ q ∈ l, q.1 ≠ [] := by
  cases t with
  | nil => exact ⟨[], rfl, by simp⟩
  | cons c cs =>
    refine ⟨(splitsG cs).map fun q => (c :: q.1, q.2), by rw [splitsG], ?_⟩
    intro q hq
    simp only [List.mem_map] at hq
    obtain ⟨r, _, rfl⟩ := hq
    simp

theorem splitsG_head_eq (t : List Char) : ∃ r, splitsG t = (t, []) :: r := by
  induction t with
  | nil => exact ⟨[], rfl⟩
  | cons c cs ih =>
    obtain ⟨r, hr⟩ := ih
    refine ⟨(r.map fun q => (c :: q.1, q.2)) ++ [([], c :: cs)], ?_⟩
    rw [splitsG, hr]
    simp

/-- How a greedy run of a character class is resolved: when `xs` is a
nonempty run of `p`-characters, `ys` does not start with one, and the
continuation `g` succeeds after consuming exactly `xs`, the backtracking
search over all splits commits to that longest viable run. -/
theorem findSome?_run {β : Type} (p : Char → Bool) (g : List Char → List Char → Option β)
    (xs ys : List Char) (v : β)
    (h0 : xs ≠ []) (h1 : xs.all p = true)
    (h2 : ∀ z zs, ys = z :: zs → p z = false)
    (h3 : g xs ys = some v) :
    ((splitsG (xs ++ ys)).findSome? fun q =>
      if !q.1.isEmpty && q.1.all p then g q.1 q.2 else none) = some v := by
  obtain ⟨l, hl, hlne⟩ := splitsG_concat ys
  rw [splitsG_append, List.findSome?_append]
  have hmapl : ((l.map fun q => (xs ++ q.1, q.2)).findSome? fun q =>
      if !q.1.isEmpty && q.1.all p then g q.1 q.2 else none) = none := by
    rw [List.findSome?_eq_none_iff]
    intro a ha
    simp only [List.mem_map] at ha
    obtain ⟨q, hq, rfl⟩ := ha
    have hq1 : q.1 ≠ [] := hlne q hq
    have hmem : q ∈ splitsG ys := by rw [hl]; exact List.mem_append_left _ hq
    have heq : q.1 ++ q.2 = ys := mem_splitsG hmem
    obtain ⟨z, zs', hz⟩ := List.exists_cons_of_ne_nil hq1
    have hpz : p z = false := by
      refine h2 z (zs' ++ q.2) ?_
      rw [← heq, hz, List.cons_append]
    have hall : ((xs ++ q.1).all p) = false := by
      rw [hz]
      simp [List.all_append, hpz]
    simp [hall]
  have hxs : (xs.isEmpty) = false := by
    cases xs with
    | nil => exact absurd rfl h0
    | cons a as => rfl
  have hfirst : (((splitsG ys).map fun q => (xs ++ q.1, q.2)).findSome? fun q =>
      if !q.1.isEmpty && q.1.all p then g q.1 q.2 else none) = some v := by
    rw [hl, List.map_append, List.findSome?_append, hmapl]
    simp [List.findSome?, hxs, h1, h3]
  rw [hfirst]
  rfl

theorem matchG3_of_noNewline (d : List Char)
    (hd : d.all (fun c => !(c == '\n')) = true) : matchG3 d = some d := by
  obtain ⟨r, hr⟩ := splitsG_head_eq d
  unfold matchG3
  rw [hr]
  simp [List.findSome?, hd, dollar]

theorem matchTailG3_run (s₂ d : List Char) (hs : s₂ ≠ []) (hs2 : s₂.all sepChar = true)
    (hdw : headIsWord d = true) (hdn : d.all (fun c => !(c == '\n')) = true) :
    matchTailG3 (s₂ ++ d) = some (some d) := by
  have hE : ((splitsG (s₂ ++ d)).findSome? fun q =>
      if !q.1.isEmpty && q.1.all sepChar then matchG3 q.2 else none) = some d := by
    refine findSome?_run sepChar (fun _ b => matchG3 b) s₂ d d hs hs2 ?_
      (matchG3_of_noNewline d hdn)
    intro z zs hz
    rw [hz] at hdw
    simp only [headIsWord] at hdw
    simp [sepChar, hdw]
  unfold matchTailG3
  rw [hE]

theorem matchOpt2Dollar_run (s₁ e tail : List Char) (g3v : Option (List Char))
    (hs₁ : s₁ ≠ []) (hs₁s : s₁.all sepChar = true)
    (he : e ≠ []) (hew : e.all wordChar = true)
    (htail : headIsSep tail = true)
    (hg3 : matchTailG3 tail = some g3v) :
    matchOpt2Dollar (s₁ ++ (e ++ tail)) = some (some (e, g3v)) := by
  have hInner : ((splitsG (e ++ tail)).findSome? fun r =>
      if !r.1.isEmpty && r.1.all wordChar then
        (matchTailG3 r.2).map (fun g3 => (r.1, g3))
      else none) = some (e, g3v) := by
    refine findSome?_run wordChar
      (fun a b => (matchTailG3 b).map (fun g3 => (a, g3))) e tail (e, g3v) he hew ?_ ?_
    · intro z zs hz
      rw [hz] at htail
      simp only [headIsSep, sepChar] at htail
      exact Bool.not_eq_true' .. |>.mp htail
    · show (matchTailG3 tail).map (fun g3 => (e, g3)) = some (e, g3v)
      rw [hg3]; rfl
  have hOuter : ((splitsG (s₁ ++ (e ++ tail))).findSome? fun q =>
      if !q.1.isEmpty && q.1.all sepChar then
        (splitsG q.2).findSome? (fun r =>
          if !r.1.isEmpty && r.1.all wordChar then
            (matchTailG3 r.2).map (fun g3 => (r.1, g3))
          else none)
      else none) = some (e, g3v) := by
    refine findSome?_run sepChar
      (fun _ b => (splitsG b).findSome? (fun r =>
        if !r.1.isEmpty && r.1.all wordChar then
          (matchTailG3 r.2).map (fun g3 => (r.1, g3))
        else none))
      s₁ (e ++ tail) (e, g3v) hs₁ hs₁s ?_ hInner
    intro z zs hz
    obtain ⟨a, e', rfl⟩ := List.exists_cons_of_ne_nil he
    rw [List.cons_append] at hz
    cases hz
    have : wordChar z = true := by
      simp only [List.all_cons, Bool.and_eq_true] at hew
      exact hew.1
    simp [sepChar, this]
  unfold matchOpt2Dollar
  rw [hOuter]

theorem matchClusterAt_run (n rest : List Char)
    (v : Option (List Char × Option (List Char)))
    (hn : n ≠ []) (hnw : n.all wordChar = true)
    (hrest : headIsSep rest = true)
    (hv : matchOpt2Dollar rest = some v) :
    matchClusterAt (n ++ rest) = some (n, v) := by
  unfold matchClusterAt
  refine findSome?_run wordChar (fun a b => (matchOpt2Dollar b).map fun g => (a, g))
    n rest (n, v) hn hnw ?_ ?_
  · intro z zs hz
    rw [hz] at hrest
    simp only [headIsSep, sepChar] at hrest
    exact Bool.not_eq_true' .. |>.mp hrest
  · show (matchOpt2Dollar rest).map (fun g => (n, g)) = some (n, v)
    rw [hv]; rfl

theorem clusterSearch_of_matchAt {t : List Char}
    {v : List Char × Option (List Char × Option (List Char))}
    (h0 : t ≠ []) (h : matchClusterAt t = some v) : clusterSearch t = some v := by
  cases t with
  | nil => exact absurd rfl h0
  | cons c cs =>
    unfold clusterSearch
    rw [h]

theorem mkData (l : List Char) : (String.mk l).data = l := rfl

theorem headIsSep_append_of (s t : List Char) (hs : s ≠ [])
    (hss : s.all sepChar = true) : headIsSep (s ++ t) = true := by
  obtain ⟨a, s', rfl⟩ := List.exists_cons_of_ne_nil hs
  simp only [List.cons_append, headIsSep]
  simp only [List.all_cons, Bool.and_eq_true] at hss
  exact hss.1

/-- Claim C1 (amended): for raw cluster strings of the shapes `name`,
`name·sep·env` and `name·sep·env·sep·descriptor` — `name`, `env` nonempty
runs of word characters (maximal because the adjacent separator characters
are non-word), `sep` nonempty runs of non-word-or-underscore characters,
and the descriptor not itself starting with a separator character and
containing no newline — the parser returns exactly `(name, env,
descriptor)`, with non-matching groups left as the empty string and the
descriptor kept verbatim including embedded separators.  (The claim as
frozen, without the no-newline proviso, is refuted by
`claim_C1_counterexample`.) -/
theorem claim_C1_amended (n s₁ e s₂ d : List Char)
    (hn : n ≠ []) (hnw : n.all wordChar = true)
    (hs₁ : s₁ ≠ []) (hs₁s : s₁.all sepChar = true)
    (he : e ≠ []) (hew : e.all wordChar = true)
    (hs₂ : s₂ ≠ []) (hs₂s : s₂.all sepChar = true)
    (hdw : headIsWord d = true) (hdn : d.all (fun c => !(c == '\n')) = true) :
    parseClusterNode (String.mk n) = (String.mk n, "", "") ∧
    parseClusterNode (String.mk (n ++ s₁ ++ e)) = (String.mk n, String.mk e, "") ∧
    parseClusterNode (String.mk (n ++ s₁ ++ e ++ s₂ ++ d))
      = (String.mk n, String.mk e, String.mk d) := by
  refine ⟨?_, ?_, ?_⟩
  · -- shape `name`
    have h1 : matchClusterAt n = some (n, none) := by
      have h := matchClusterAt_run n [] none hn hnw rfl (by decide)
      rwa [List.append_nil] at h
    simp [parseClusterNode, clusterInfoSearch, mkData, clusterSearch_of_matchAt hn h1]
  · -- shape `name·sep·env`
    have hm : matchOpt2Dollar (s₁ ++ (e ++ [])) = some (some (e, none)) :=
      matchOpt2Dollar_run s₁ e [] none hs₁ hs₁s he hew rfl (by decide)
    rw [List.append_nil] at hm
    have h1 : matchClusterAt (n ++ (s₁ ++ e)) = some (n, some (e, none)) :=
      matchClusterAt_run n (s₁ ++ e) (some (e, none)) hn hnw
        (headIsSep_append_of s₁ e hs₁ hs₁s) hm
    have h2 : clusterSearch (n ++ (s₁ ++ e)) = some (n, some (e, none)) :=
      clusterSearch_of_matchAt (by simp [hn]) h1
    simp [parseClusterNode, clusterInfoSearch, mkData, h2]
  · -- shape `name·sep·env·sep·descriptor`
    have hm3 : matchTailG3 (s₂ ++ d) = some (some d) :=
      matchTailG3_run s₂ d hs₂ hs₂s hdw hdn
    have hopt : matchOpt2Dollar (s₁ ++ (e ++ (s₂ ++ d))) = some (some (e, some d)) :=
      matchOpt2Dollar_run s₁ e (s₂ ++ d) (some d) hs₁ hs₁s he hew
        (headIsSep_append_of s₂ d hs₂ hs₂s) hm3
    have h1 : matchClusterAt (n ++ (s₁ ++ (e ++ (s₂ ++ d))))
        = some (n, some (e, some d)) :=
      matchClusterAt_run n (s₁ ++ (e ++ (s₂ ++ d))) (some (e, some d)) hn hnw
        (headIsSep_append_of s₁ (e ++ (s₂ ++ d)) hs₁ hs₁s) hopt
    have h2 : clusterSearch (n ++ (s₁ ++ (e ++ (s₂ ++ d)))) = some (n, some (e, some d)) :=
      clusterSearch_of_matchAt (by simp [hn]) h1
    simp [parseClusterNode, clusterInfoSearch, mkData, h2]

/-- Claim C1 counterexample: the input `"a b c\nd"` decomposes as
`name·sep·env·sep·descriptor` with name `a`, env `b` and descriptor
`c\nd` (which retains an embedded separator, here a newline), yet the
parser returns `("b", "c", "d")` and not `("a", "b", "c\nd")`: because `.`
does not match a newline and `$` only matches at the end, `re.search`
skips ahead and matches from the second word run instead. -/
theorem claim_C1_counterexample :
    "a b c\nd" = String.mk ("a".data ++ " ".data ++ "b".data ++ " ".data ++ "c\nd".data) ∧
    ("a".data.all wordChar = true ∧ " ".data.all sepChar = true ∧
     "b".data.all wordChar = true ∧ " ".data.all sepChar = true ∧
     headIsWord "c\nd".data = true) ∧
    parseClusterNode "a b c\nd" = ("b", "c", "d") ∧
    parseClusterNode "a b c\nd" ≠ ("a", "b", "c\nd") := by decide

/-- Claim C1 witness: the three edge cases listed in the specification,
obtained from `claim_C1_amended` at concrete decompositions. -/
theorem claim_C1_witness :
    parseClusterNode "ocps4" = ("ocps4", "", "") ∧
    parseClusterNode "ocps4 - uat" = ("ocps4", "uat", "") ∧
    parseClusterNode "ocps4 - uat_abc_def123" = ("ocps4", "uat", "abc_def123") := by
  have h := claim_C1_amended "ocps4".data " - ".data "uat".data "_".data "abc_def123".data
    (by decide) (by decide) (by decide) (by decide) (by decide) (by decide)
    (by decide) (by decide) (by decide) (by decide)
  have ha : String.mk "ocps4".data = "ocps4" := by decide
  have hb : String.mk "uat".data = "uat" := by decide
  have hc : String.mk "abc_def123".data = "abc_def123" := by decide
  have hab : String.mk ("ocps4".data ++ " - ".data ++ "uat".data) = "ocps4 - uat" := by decide
  have habc : String.mk ("ocps4".data ++ " - ".data ++ "uat".data ++ "_".data
      ++ "abc_def123".data) = "ocps4 - uat_abc_def123" := by decide
  rw [ha, hb, hc, hab, habc] at h
  exact h

/- ---------------------------------------------------------------------
   UBI metadata resolution (`generate-cves-by-image.py` lines 11-14 and
   179-227):

     UBI_IDENTIFIER_IN_LABEL = "\"url\"=\"https://access.redhat.com/..."
     OS_ID_RHEL = "rhel"
     UBI_REGEX = r"(?:https\://.+/([^/]+)/images/(\d[\d.]*)\-(\d[\d.]*))"

   The UBI regex is embedded with the same backtracking discipline as the
   cluster regex; it has no anchors, so the leftmost match wins.
   --------------------------------------------------------------------- -/

/-- The regex class `[\d.]`. -/
def digitDot (c : Char) : Bool := c.isDigit || c == '.'

/-- UBI_REGEX matched at one start position.  The literal `https://` is 8
characters, as is the literal `/images/`; `.+` is greedy and does not
match a newline; `([^/]+)` is greedy; each `(\d[\d.]*)` is one digit
followed by a greedy run of digits and dots. -/
def matchUbiAt (cs : List Char) : Option (String × String × String) :=
  if "https://".data.isPrefixOf cs then
    (splitsG (cs.drop 8)).findSome? fun p1 =>
      if !p1.1.isEmpty && p1.1.all (fun c => !(c == '\n')) then
        (match p1.2 with
         | '/' :: r1 =>
           (splitsG r1).findSome? fun p2 =>
             if !p2.1.isEmpty && p2.1.all (fun c => !(c == '/')) then
               (if "/images/".data.isPrefixOf p2.2 then
                 (match p2.2.drop 8 with
                  | c2 :: r3 =>
                    if c2.isDigit then
                      (splitsG r3).findSome? fun p3 =>
                        if p3.1.all digitDot then
                          (match p3.2 with
                           | '-' :: c3 :: r5 =>
                             if c3.isDigit then
                               (splitsG r5).findSome? fun p4 =>
                                 if p4.1.all digitDot then
                                   some (String.mk p2.1, String.mk (c2 :: p3.1),
                                     String.mk (c3 :: p4.1))
                                 else none
                             else none
                           | _ => none)
                        else none
                    else none
                  | [] => none)
                else none)
             else none
         | _ => none)
      else none
  else none

/-- `re.search(UBI_REGEX, ·)`: successive start positions, left to right. -/
def ubiSearch : List Char → Option (String × String × String)
  | [] => none
  | c :: cs =>
    match matchUbiAt (c :: cs) with
    | some g => some g
    | none => ubiSearch cs

def ubiRegexSearch (s : String) : Option (String × String × String) :=
  ubiSearch s.data

/-- Python's substring containment test (`pat in s` on strings). -/
def listContains (pat : List Char) : List Char → Bool
  | [] => pat.isEmpty
  | c :: t => pat.isPrefixOf (c :: t) || listContains pat t

/-- Python's `s.startswith(pre)`, as a character-list comparison. -/
def pyStartsWith (s pre : String) : Bool := pre.data.isPrefixOf s.data

def UBI_IDENTIFIER_IN_LABEL : String :=
  "\"url\"=\"https://access.redhat.com/containers/#/registry.access.redhat.com/ubi"

def OS_ID_RHEL : String := "rhel"

/-- The literal `UBI_PREFIX = "ubi"` of the source. -/
def UBI_PREFIX_LIT : String := "ubi"

/-- The Python exception types raised by the embedded fragments:
`KeyError` from subscripting a mapping without the key, `TypeError` from
subscripting `None`, `NameError` from reading a never-assigned local. -/
inductive PyErr where
  | keyError
  | typeError
  | nameError
deriving DecidableEq

deriving instance DecidableEq for Except

/-- Python dict subscription `m[k]` on a string-keyed mapping: the value,
or a raised `KeyError` when the key is absent. -/
def lookupKey (m : List (String × String)) (k : String) : Except PyErr String :=
  match m.find? (fun kv => kv.1 == k) with
  | some kv => .ok kv.2
  | none => .error .keyError

/-- `hasattr(labels, "url")` (line 205): `hasattr` tests for an attribute
of the dict object itself, not for a key among its items, so it is false
for every labels mapping. -/
def hasattrUrl (_labels : List (String × String)) : Bool := false

/-- One entry of `metadataJson["layers"]`. -/
structure Layer where
  instruction : String
  value : String
deriving DecidableEq

/-- The parts of `metadataJson = responseJson["metadata"]["v1"]` the
resolution reads: `created`, the build `layers`, and the `labels`
mapping, whose individual keys may be absent (subscription then raises
`KeyError` — the exception source of the resolution block). -/
structure MetadataV1 where
  created : String
  layers : List Layer
  labels : List (String × String)
deriving DecidableEq

structure UbiFields where
  name : String
  version : String
  release : String
deriving DecidableEq

/-- Lines 188-199: scan the layers in order; for each `LABEL` layer whose
value contains the UBI marker, run the UBI regex; on a match take the
three groups and `break`; on a regex miss keep scanning. -/
def scanLayers : List Layer → Option (String × String × String)
  | [] => none
  | l :: rest =>
    if l.instruction == "LABEL"
        && listContains UBI_IDENTIFIER_IN_LABEL.data l.value.data then
      match ubiRegexSearch l.value with
      | some g => some g
      | none => scanLayers rest
    else scanLayers rest

/-- Lines 203-210: the guarded url-label step, `None` meaning the step
set no fields (guard false or regex miss). -/
def urlLabelStep (labels : List (String × String)) :
    Except PyErr (Option (String × String × String)) :=
  if hasattrUrl labels then
    match lookupKey labels "url" with
    | .error err => .error err
    | .ok u => .ok (ubiRegexSearch u)
  else .ok none

/-- Lines 188-216: the three resolution steps before the final gate:
layer scan, then (when it yielded no name) the guarded url-label step,
then the discrete `name`/`version`/`release` label keys. -/
def resolveUbiRaw (meta : MetadataV1) : Except PyErr (String × String × String) :=
  match scanLayers meta.layers with
  | some g => .ok g
  | none =>
    match urlLabelStep meta.labels with
    | .error err => .error err
    | .ok (some g) => .ok g
    | .ok none =>
      match lookupKey meta.labels "name" with
      | .error err => .error err
      | .ok nv =>
        match lookupKey meta.labels "version" with
        | .error err => .error err
        | .ok vv =>
          match lookupKey meta.labels "release" with
          | .error err => .error err
          | .ok rv => .ok (nv, vv, rv)

/-- Lines 186-222: the UBI metadata resolution for one image.  It applies
only when the operating system starts with `"rhel"`; on completion the
final gate (lines 218-222) clears all three fields when the resolved name
does not start with `"ubi"`. -/
def resolveUbi (os : String) (meta : MetadataV1) : Except PyErr UbiFields :=
  if pyStartsWith os OS_ID_RHEL then
    match resolveUbiRaw meta with
    | .error err => .error err
    | .ok (nv, vv, rv) =>
      if pyStartsWith nv UBI_PREFIX_LIT then .ok ⟨nv, vv, rv⟩ else .ok ⟨"", "", ""⟩
  else .ok ⟨"", "", ""⟩


/-- Claim C2 (code bug): an image whose operating system is rhel-based,
whose layer scan yields no name, and whose labels mapping has a `url` key
that the UBI extraction pattern matches.  The claim (and the source's own
comment "try to get the metadata from the url") says the pattern is
applied to that label's value before the discrete-key fallback; since
`hasattr(labels, "url")` is false on a mapping, the code skips the url
step entirely and goes straight to the discrete keys — here raising
`KeyError` for the absent `name` key even though the url extraction would
have produced `("ubi8", "8.1", "2")`. -/
theorem claim_C2_code_eval :
    hasattrUrl [("url", "https://a/ubi8/images/8.1-2")] = false ∧
    ubiRegexSearch "https://a/ubi8/images/8.1-2" = some ("ubi8", "8.1", "2") ∧
    resolveUbi "rhel8" ⟨"", [], [("url", "https://a/ubi8/images/8.1-2")]⟩
      = .error .keyError := by decide

/-- Claim C6: whenever the UBI resolution completes without raising an
exception, its result is all-or-nothing — either the resolved name starts
with the literal `"ubi"`, or all three fields are the empty string. -/
theorem claim_C6_all_or_nothing (os : String) (meta : MetadataV1) (u : UbiFields)
    (h : resolveUbi os meta = .ok u) :
    pyStartsWith u.name "ubi" = true ∨ (u.name = "" ∧ u.version = "" ∧ u.release = "") := by
  unfold resolveUbi at h
  split at h
  · split at h
    · exact absurd h (by simp)
    · split at h
      next hcond =>
        injection h with h2
        subst h2
        exact Or.inl (by simpa [UBI_PREFIX_LIT] using hcond)
      next =>
        injection h with h2
        subst h2
        exact Or.inr ⟨rfl, rfl, rfl⟩
  · injection h with h2
    subst h2
    exact Or.inr ⟨rfl, rfl, rfl⟩

/-- Claim C6 witness: a rhel image with non-UBI discrete labels resolves
to `("", "", "")`, satisfying the all-or-nothing property via its right
disjunct. -/
theorem claim_C6_witness :
    resolveUbi "rhel8" ⟨"", [], [("name", "foo"), ("version", "1"), ("release", "2")]⟩
        = .ok ⟨"", "", ""⟩ ∧
    (pyStartsWith (UbiFields.mk "" "" "").name "ubi" = true ∨
      ((UbiFields.mk "" "" "").name = "" ∧ (UbiFields.mk "" "" "").version = "" ∧
        (UbiFields.mk "" "" "").release = "")) := by
  refine ⟨by decide, ?_⟩
  exact claim_C6_all_or_nothing "rhel8"
    ⟨"", [], [("name", "foo"), ("version", "1"), ("release", "2")]⟩
    ⟨"", "", ""⟩ (by decide)

/- ---------------------------------------------------------------------
   Per-image processing and CVE aggregation
   (`generate-cves-by-image.py` lines 77-89 and 164-247).
   --------------------------------------------------------------------- -/

/-- One raw vulnerability record of `component["vulns"]`.  `hasFixedBy`
models the key-presence test `"fixedBy" in cveData`; `cvssV3Impact` is
`none` when `cvssV3` is `None`; the numeric fields are carried as their
raw text, since floating-point formatting is outside this embedding. -/
structure Cve where
  cve : String
  severity : String
  hasFixedBy : Bool
  cvss : String
  cvssV3Impact : Option String
  publishedOn : Option String
  firstSystemOccurrence : String
  link : String
  summary : String
deriving DecidableEq, Inhabited

/-- One entry of `responseJson["scan"]["components"]`. -/
structure Component where
  vulns : List Cve
deriving DecidableEq

/-- The parts of `responseJson["scan"]` that are read. -/
structure ImageScan where
  operatingSystem : String
  components : List Component
deriving DecidableEq

/-- The parts of the `/images/{id}` response body that are read. -/
structure ImageResp where
  metadataV1 : MetadataV1
  scan : ImageScan
deriving DecidableEq

/-- Class `CveDetail` (lines 85-89): `cve` starts as the empty dict `{}`
(modelled by the all-empty default record) and is overwritten by the
first merge; the two lists start empty. -/
structure CveDetail where
  cve : Cve
  namespaces : List String
  images : List String
deriving DecidableEq

def CveDetail.init : CveDetail := ⟨default, [], []⟩

/-- `if x not in l: l.append(x)` (lines 241-244). -/
def appendIfNew (l : List String) (x : String) : List String :=
  if x ∈ l then l else l ++ [x]

/-- Lines 233-244: merge one vulnerability of one image into the owning
cluster's CVE mapping (a Python dict in insertion order, modelled as an
association list): create the entry if the identifier is absent, then
overwrite its stored record with the current one and append the current
namespace and image full-name only if not already present. -/
def mergeVuln (m : List (String × CveDetail)) (ns img : String) (cve : Cve) :
    List (String × CveDetail) :=
  (if m.any (fun kv => kv.1 == cve.cve) then m
   else m ++ [(cve.cve, CveDetail.init)]).map fun kv =>
    if kv.1 == cve.cve then
      (kv.1, ⟨cve, appendIfNew kv.2.namespaces ns, appendIfNew kv.2.images img⟩)
    else kv

/-- Lines 230-244 (the body of the `finally` clause): fold every
vulnerability of every scanned component into the cluster's CVE
mapping. -/
def aggregateComponents (m : List (String × CveDetail)) (ns img : String)
    (comps : List Component) : List (String × CveDetail) :=
  comps.foldl (fun acc comp => comp.vulns.foldl (fun a c => mergeVuln a ns img c) acc) m

/-- The value of the local variable `os` after the per-image try/except:
the scanned operating-system string, or (line 225) the exception's
type. -/
inductive OsField where
  | str (s : String)
  | excType (e : PyErr)
deriving DecidableEq

/-- The observable outcome of the per-image block, lines 174-244: the
diagnostic `os` value, the UBI resolution outcome, and the result of the
`finally` clause — the updated CVE mapping, or the exception the
`finally` clause itself raises (`responseJson["scan"]` subscripts `None`
when the image fetch returned no data, raising `TypeError`, which
propagates to the per-deployment handler). -/
structure ContainerOutcome where
  os : OsField
  ubi : Except PyErr UbiFields
  result : Except PyErr (List (String × CveDetail))
deriving DecidableEq

def processContainer (m : List (String × CveDetail)) (ns imgName : String)
    (resp : Option ImageResp) : ContainerOutcome :=
  match resp with
  | none => ⟨.str "", .ok ⟨"", "", ""⟩, .error .typeError⟩
  | some r =>
    match resolveUbi r.scan.operatingSystem r.metadataV1 with
    | .ok u => ⟨.str r.scan.operatingSystem, .ok u,
        .ok (aggregateComponents m ns imgName r.scan.components)⟩
    | .error e => ⟨.excType e, .error e,
        .ok (aggregateComponents m ns imgName r.scan.components)⟩

/-- Claim C7: when the metadata/UBI resolution of a fetched image raises,
the exception is caught at the image level, the `os` diagnostic field
becomes the exception's type, and the `finally` clause still runs CVE
extraction over the image's scan data, exactly as in the non-failing
case. -/
theorem claim_C7_finally_runs (m : List (String × CveDetail)) (ns imgName : String)
    (r : ImageResp) (e : PyErr)
    (h : resolveUbi r.scan.operatingSystem r.metadataV1 = .error e) :
    (processContainer m ns imgName (some r)).os = .excType e ∧
    (processContainer m ns imgName (some r)).result
      = .ok (aggregateComponents m ns imgName r.scan.components) := by
  simp only [processContainer]
  rw [h]
  exact ⟨rfl, rfl⟩

/-- Claim C7 witness: a rhel image with an empty labels mapping makes the
resolution raise `KeyError`; the outcome still aggregates the image's one
vulnerability. -/
theorem claim_C7_witness :
    resolveUbi "rhel8" ⟨"", [], []⟩ = .error .keyError ∧
    (processContainer [] "ns1" "img1"
        (some ⟨⟨"", [], []⟩,
          ⟨"rhel8", [⟨[⟨"CVE-1", "LOW_VULNERABILITY_SEVERITY", false, "5.0",
            none, none, "", "", ""⟩]⟩]⟩⟩)).os = .excType .keyError ∧
    (processContainer [] "ns1" "img1"
        (some ⟨⟨"", [], []⟩,
          ⟨"rhel8", [⟨[⟨"CVE-1", "LOW_VULNERABILITY_SEVERITY", false, "5.0",
            none, none, "", "", ""⟩]⟩]⟩⟩)).result
      = .ok (aggregateComponents [] "ns1" "img1"
          [⟨[⟨"CVE-1", "LOW_VULNERABILITY_SEVERITY", false, "5.0",
            none, none, "", "", ""⟩]⟩]) := by
  refine ⟨by decide, ?_, ?_⟩
  · exact (claim_C7_finally_runs [] "ns1" "img1"
      ⟨⟨"", [], []⟩, ⟨"rhel8", [⟨[⟨"CVE-1", "LOW_VULNERABILITY_SEVERITY", false, "5.0",
        none, none, "", "", ""⟩]⟩]⟩⟩ .keyError (by decide)).1
  · exact (claim_C7_finally_runs [] "ns1" "img1"
      ⟨⟨"", [], []⟩, ⟨"rhel8", [⟨[⟨"CVE-1", "LOW_VULNERABILITY_SEVERITY", false, "5.0",
        none, none, "", "", ""⟩]⟩]⟩⟩ .keyError (by decide)).2

/-- The invariant claim C5 asserts of every reachable aggregation state:
CVE identifiers are pairwise distinct (each maps to exactly one aggregate
record), and each record's namespaces and images lists contain no
duplicate entries. -/
def aggInv (m : List (String × CveDetail)) : Prop :=
  (m.map Prod.fst).Nodup ∧ ∀ kv ∈ m, kv.2.namespaces.Nodup ∧ kv.2.images.Nodup

theorem appendIfNew_nodup {l : List String} {x : String} (h : l.Nodup) :
    (appendIfNew l x).Nodup := by
  unfold appendIfNew
  split
  · exact h
  next hx =>
    rw [List.nodup_append]
    refine ⟨h, List.nodup_singleton x, ?_⟩
    intro a ha hax
    simp only [List.mem_singleton] at hax
    exact hx (hax ▸ ha)

theorem mergeVuln_entry_src (m : List (String × CveDetail)) (cve : Cve)
    {kv : String × CveDetail}
    (hkv : kv ∈ (if m.any (fun kv => kv.1 == cve.cve) then m
      else m ++ [(cve.cve, CveDetail.init)]))
    (h : ∀ p ∈ m, p.2.namespaces.Nodup ∧ p.2.images.Nodup) :
    kv.2.namespaces.Nodup ∧ kv.2.images.Nodup := by
  split at hkv
  · exact h kv hkv
  · rcases List.mem_append.mp hkv with hm | hs
    · exact h kv hm
    · simp only [List.mem_singleton] at hs
      subst hs
      exact ⟨List.nodup_nil, List.nodup_nil⟩

theorem mergeVuln_inv (m : List (String × CveDetail)) (ns img : String) (cve : Cve)
    (h : aggInv m) : aggInv (mergeVuln m ns img cve) := by
  obtain ⟨hkeys, hentries⟩ := h
  constructor
  · -- the keys are unchanged by the update map, and a fresh key is
    -- appended only when absent
    have hfst : ((mergeVuln m ns img cve).map Prod.fst) =
        ((if m.any (fun kv => kv.1 == cve.cve) then m
          else m ++ [(cve.cve, CveDetail.init)]).map Prod.fst) := by
      unfold mergeVuln
      rw [List.map_map]
      refine List.map_congr_left ?_
      intro kv _
      simp only [Function.comp_apply]
      split <;> rfl
    rw [hfst]
    split
    · exact hkeys
    next hcond =>
      simp only [List.any_eq_true, beq_iff_eq, not_exists] at hcond
      rw [List.map_append, List.nodup_append]
      refine ⟨hkeys, by simp, ?_⟩
      intro a ha hax
      simp only [List.map_cons, List.map_nil, List.mem_singleton] at hax
      subst hax
      obtain ⟨kv, hkv, hfst⟩ := List.mem_map.mp ha
      exact hcond kv ⟨hkv, hfst⟩
  · intro kv' hkv'
    unfold mergeVuln at hkv'
    obtain ⟨kv, hkv, heq⟩ := List.mem_map.mp hkv'
    have hsrc := mergeVuln_entry_src m cve hkv hentries
    subst heq
    split
    · exact ⟨appendIfNew_nodup hsrc.1, appendIfNew_nodup hsrc.2⟩
    · exact hsrc

theorem mergeVuln_extends (m : List (String × CveDetail)) (ns img : String) (cve : Cve)
    {kv : String × CveDetail} (hkv : kv ∈ m) :
    ∃ kv' ∈ mergeVuln m ns img cve, kv'.1 = kv.1 ∧
      (kv'.2.namespaces = kv.2.namespaces ∨ kv'.2.namespaces = kv.2.namespaces ++ [ns]) ∧
      (kv'.2.images = kv.2.images ∨ kv'.2.images = kv.2.images ++ [img]) := by
  have hm1 : kv ∈ (if m.any (fun kv => kv.1 == cve.cve) then m
      else m ++ [(cve.cve, CveDetail.init)]) := by
    split
    · exact hkv
    · exact List.mem_append_left _ hkv
  refine ⟨if kv.1 == cve.cve then
      (kv.1, ⟨cve, appendIfNew kv.2.namespaces ns, appendIfNew kv.2.images img⟩)
    else kv, List.mem_map_of_mem _ hm1, ?_⟩
  split
  · have hc : ∀ (l : List String) (x : String),
        appendIfNew l x = l ∨ appendIfNew l x = l ++ [x] := by
      intro l x
      unfold appendIfNew
      split
      · exact Or.inl rfl
      · exact Or.inr rfl
    exact ⟨rfl, hc kv.2.namespaces ns, hc kv.2.images img⟩
  · exact ⟨rfl, Or.inl rfl, Or.inl rfl⟩

theorem foldl_mergeVuln_inv (events : List (String × String × Cve))
    (s : List (String × CveDetail)) (h : aggInv s) :
    aggInv (events.foldl (fun acc ev => mergeVuln acc ev.1 ev.2.1 ev.2.2) s) := by
  induction events generalizing s with
  | nil => exact h
  | cons ev rest ih => exact ih _ (mergeVuln_inv _ _ _ _ h)

theorem aggregateComponents_inv (m : List (String × CveDetail)) (ns img : String)
    (comps : List Component) (h : aggInv m) :
    aggInv (aggregateComponents m ns img comps) := by
  unfold aggregateComponents
  induction comps generalizing m with
  | nil => exact h
  | cons comp rest ih =>
    rw [List.foldl_cons]
    refine ih _ ?_
    have : ∀ (vulns : List Cve) (s : List (String × CveDetail)), aggInv s →
        aggInv (vulns.foldl (fun a c => mergeVuln a ns img c) s) := by
      intro vulns
      induction vulns with
      | nil => exact fun s hs => hs
      | cons v vs ihv => exact fun s hs => ihv _ (mergeVuln_inv _ _ _ _ hs)
    exact this comp.vulns m h

/-- Claim C5: every aggregation state reachable by folding merges from the
empty mapping satisfies the invariant — each CVE identifier maps to
exactly one record and the namespaces/images lists are duplicate-free —
and every single merge both preserves the invariant and only ever extends
an existing record's lists by appending the current namespace or image at
the end (first-seen order is kept).  The same holds for the per-image
fold `aggregateComponents`. -/
theorem claim_C5_invariant :
    (∀ events : List (String × String × Cve),
      aggInv (events.foldl (fun acc ev => mergeVuln acc ev.1 ev.2.1 ev.2.2) [])) ∧
    (∀ m ns img cve, aggInv m →
      aggInv (mergeVuln m ns img cve) ∧
      ∀ kv ∈ m, ∃ kv' ∈ mergeVuln m ns img cve, kv'.1 = kv.1 ∧
        (kv'.2.namespaces = kv.2.namespaces ∨
          kv'.2.namespaces = kv.2.namespaces ++ [ns]) ∧
        (kv'.2.images = kv.2.images ∨ kv'.2.images = kv.2.images ++ [img])) ∧
    (∀ m ns img comps, aggInv m → aggInv (aggregateComponents m ns img comps)) := by
  refine ⟨?_, ?_, ?_⟩
  · intro events
    exact foldl_mergeVuln_inv events [] ⟨List.nodup_nil, by simp⟩
  · intro m ns img cve h
    exact ⟨mergeVuln_inv m ns img cve h, fun kv hkv => mergeVuln_extends m ns img cve hkv⟩
  · intro m ns img comps h
    exact aggregateComponents_inv m ns img comps h

/- ---------------------------------------------------------------------
   The HTTP/JSON client and the two pipeline mains.
   --------------------------------------------------------------------- -/

/-- An HTTP response as seen by the two fetch helpers: a 200 response
with a parsed JSON body, or a non-200 status. -/
inductive HttpResp (α : Type) where
  | ok (body : α)
  | notOk (status : Nat)
deriving DecidableEq

/-- `getJsonFromRhacsApi` / `getJsonFromRhacsGraphQl` (image script lines
290-300, node script lines 183-212): a non-200 response is logged and
`None` is returned; a 200 response yields the parsed body. -/
def getJson {α : Type} : HttpResp α → Option α
  | .ok b => some b
  | .notOk _ => none

/-- The fields of one entry of the `/deployments` listing that are read
(`namespace_` models the JSON key `namespace`). -/
structure Deployment where
  clusterId : String
  cluster : String
  namespace_ : String
  id : String
  name : String
deriving DecidableEq

structure ContainerImage where
  id : String
  fullName : String
deriving DecidableEq

structure Container where
  image : ContainerImage
deriving DecidableEq

/-- The part of the `/deployments/{id}` response that is read. -/
structure DeploymentDetail where
  containers : List Container
deriving DecidableEq

structure DeploymentsResp where
  deployments : List Deployment
deriving DecidableEq

/-- The API oracle of the image pipeline: which response each detail GET
returns (the HTTP transport itself is an external collaborator). -/
structure ImageApi where
  deploymentDetail : String → HttpResp DeploymentDetail
  imageDetail : String → HttpResp ImageResp

/-- Class `ClusterDetail` (lines 77-83). -/
structure ClusterDetail where
  clusterId : String
  clusterName : String
  clusterEnvironment : String
  clusterDescriptor : String
  cveDetails : List (String × CveDetail)
deriving DecidableEq

/-- The loop-carried state of the per-deployment loop: the
`cvesByCluster` mapping (a dict in insertion order) and the current value
of the loop-local `clusterName` variable (`none` = never assigned). -/
structure ImageState where
  clusters : List (String × ClusterDetail)
  lastName : Option String
deriving DecidableEq

def lookupCluster (m : List (String × ClusterDetail)) (cid : String) :
    Option ClusterDetail :=
  (m.find? (fun kv => kv.1 == cid)).map Prod.snd

def setCveDetails (m : List (String × ClusterDetail)) (cid : String)
    (ds : List (String × CveDetail)) : List (String × ClusterDetail) :=
  m.map fun kv => if kv.1 == cid then (kv.1, { kv.2 with cveDetails := ds }) else kv

/-- Lines 168-244: the loop over a deployment's containers.  Each
iteration fetches `/images/{id}` (the request path is logged in the
second component); a `TypeError` raised by the `finally` clause (image
fetch returned no data) propagates to the per-deployment handler, which
abandons the remaining containers while keeping the aggregations already
made. -/
def processContainersLoop (api : ImageApi) (ns : String) :
    List Container → List (String × CveDetail) →
      List (String × CveDetail) × List String
  | [], m => (m, [])
  | c :: rest, m =>
    match (processContainer m ns c.image.fullName
        (getJson (api.imageDetail c.image.id))).result with
    | .ok m' =>
      match processContainersLoop api ns rest m' with
      | (mf, log) => (mf, ("/images/" ++ c.image.id) :: log)
    | .error _ => (m, ["/images/" ++ c.image.id])

/-- Lines 128-247: process one deployment.  Parse the cluster label; when
the parse left the `clusterName` variable unbound, its first use (line
150 or the progress print at line 162) raises `NameError`, which no
handler catches.  Otherwise register the cluster on first sight, fetch
the deployment detail (skipping the containers when it returned no data)
and run the container loop, whose exceptions the per-deployment `except`
swallows after logging. -/
def processDeployment (api : ImageApi) (st : ImageState) (d : Deployment) :
    Except PyErr ImageState × List String :=
  match parseClusterImage st.lastName d.cluster with
  | (none, _, _) => (.error .nameError, [])
  | (some name, env, desc) =>
    let clusters1 :=
      if (lookupCluster st.clusters d.clusterId).isSome then st.clusters
      else st.clusters ++ [(d.clusterId, ⟨d.clusterId, name, env, desc, []⟩)]
    match getJson (api.deploymentDetail d.id) with
    | none => (.ok ⟨clusters1, some name⟩, ["/deployments/" ++ d.id])
    | some dd =>
      match processContainersLoop api d.namespace_ dd.containers
          (((lookupCluster clusters1 d.clusterId).map ClusterDetail.cveDetails).getD []) with
      | (ds, log) =>
        (.ok ⟨setCveDetails clusters1 d.clusterId ds, some name⟩,
          ("/deployments/" ++ d.id) :: log)

/-- The `for deployment in deploymentsToBeInspected` loop; an uncaught
exception (the `NameError` case) aborts the whole run. -/
def processDeployments (api : ImageApi) :
    ImageState → List Deployment → Except PyErr ImageState × List String
  | st, [] => (.ok st, [])
  | st, d :: rest =>
    match processDeployment api st d with
    | (.error e, log) => (.error e, log)
    | (.ok st', log) =>
      match processDeployments api st' rest with
      | (res, log') => (res, log ++ log')

/-- Line 39. -/
def IS_INCLUDE_OPENSHIFT_NAMESPACE : Bool := false

/-- Line 124: skip all openshift namespaces unless the flag is set. -/
def deploymentsToBeInspected (ds : List Deployment) : List Deployment :=
  if IS_INCLUDE_OPENSHIFT_NAMESPACE then ds
  else ds.filter fun d => !(pyStartsWith d.namespace_ "openshift")

def VULNERABILITY_SEVERITY : List (String × String) :=
  [("CRITICAL_VULNERABILITY_SEVERITY", "Critical"),
   ("IMPORTANT_VULNERABILITY_SEVERITY", "Important"),
   ("MODERATE_VULNERABILITY_SEVERITY", "Moderate"),
   ("LOW_VULNERABILITY_SEVERITY", "Low"),
   ("UNKNOWN_VULNERABILITY_SEVERITY", "Unknown")]

/-- The try/except around the severity lookup: a missing key leaves
`severity = ""`. -/
def severityName (s : String) : String :=
  ((VULNERABILITY_SEVERITY.find? (fun kv => kv.1 == s)).map Prod.snd).getD ""

/-- CSV_HEADER of `generate-cves-by-image.py` (lines 16-31). -/
def CSV_HEADER : List String :=
  ["Cluster Name", "Environment", "Cluster Descriptor", "CVE", "Fixable",
   "Severity", "CVSS", "Impact Score", "Namespaces", "Images",
   "Published On", "Discovered On", "Link", "Summary"]

/-- One data row of the image report (lines 270-285): the `Fixable`
column from the `fixedBy` key-presence test, the severity translation,
the numeric cells carried as raw field text (their float formatting is
outside the embedding), the namespaces and images cells newline-joined,
and `Published On` defaulting to `""` when `None`. -/
def rowOf (cd : ClusterDetail) (cveId : String) (dt : CveDetail) : List String :=
  [cd.clusterName, cd.clusterEnvironment, cd.clusterDescriptor, cveId,
   if dt.cve.hasFixedBy then "Fixable" else "Not Fixable",
   severityName dt.cve.severity,
   dt.cve.cvss,
   dt.cve.cvssV3Impact.getD "0.00",
   String.intercalate "\n" dt.namespaces,
   String.intercalate "\n" dt.images,
   dt.cve.publishedOn.getD "",
   dt.cve.firstSystemOccurrence,
   dt.cve.link,
   dt.cve.summary]

/-- The sort key of line 255. -/
def clusterSortKey (cd : ClusterDetail) : String × String :=
  (cd.clusterEnvironment, cd.clusterName)

/-- Python's tuple comparison on a pair of strings (code-point
lexicographic, as both Python and Lean compare strings). -/
def keyLe (a b : String × String) : Bool :=
  decide (a.1 < b.1) || (a.1 == b.1 && decide (a.2 ≤ b.2))

/-- Line 255: `sorted(cvesByCluster, key=...)` — a stable sort by the
`(environment, clusterName)` key; any stable sort computes the same list,
here a stable merge sort. -/
def sortClusters (m : List (String × ClusterDetail)) : List (String × ClusterDetail) :=
  m.mergeSort fun a b => keyLe (clusterSortKey a.2) (clusterSortKey b.2)

/-- Lines 249-286: the written CSV — the header row, then the rows of
each cluster in sorted order, each cluster's rows in the CVE mapping's
iteration order. -/
def imageCsvRows (m : List (String × ClusterDetail)) : List (List String) :=
  CSV_HEADER :: (sortClusters m).flatMap fun kv =>
    kv.2.cveDetails.map fun p => rowOf kv.2 p.1 p.2

/-- `main` of `generate-cves-by-image.py`: list the deployments, process
each non-openshift one, then create the CSV.  The first component is the
written file as a list of rows — `.error` means the run died with an
uncaught exception before the file was created (line 250 is only reached
after the loop) — and the second the log of detail request paths
issued. -/
def runImagePipeline (api : ImageApi) (listing : HttpResp DeploymentsResp) :
    Except PyErr (List (List String)) × List String :=
  match getJson listing with
  | none => (.ok (imageCsvRows []), [])
  | some resp =>
    match processDeployments api ⟨[], none⟩ (deploymentsToBeInspected resp.deployments) with
    | (.error e, log) => (.error e, log)
    | (.ok st, log) => (.ok (imageCsvRows st.clusters), log)

/- ---------------------------------------------------------------------
   The node pipeline (`generate-cves-by-nodes.py`).
   --------------------------------------------------------------------- -/

/-- CSV_HEADER of `generate-cves-by-nodes.py` (lines 12-27). -/
def NODE_CSV_HEADER : List String :=
  ["Cluster Name", "Environment", "Cluster Descriptor", "Node Name", "CVE",
   "Fixable", "Severity", "CVSS", "Env. Impact", "Impact Score",
   "Published On", "Discovered On", "Link", "Summary"]

/-- One node-vulnerability record of the GraphQL response (numeric fields
carried as raw text). -/
structure NodeCve where
  cve : String
  isFixable : Bool
  severity : String
  cvss : String
  envImpact : String
  impactScore : String
  publishedOn : String
  createdAt : String
  link : String
  summary : String
deriving DecidableEq

structure NodeInfo where
  id : String
  name : String
deriving DecidableEq

structure NodesResp where
  nodes : List NodeInfo
deriving DecidableEq

/-- The part of the GraphQL response that is read:
`["data"]["result"]["nodeVulnerabilities"]`. -/
structure GraphQlResp where
  nodeVulnerabilities : List NodeCve
deriving DecidableEq

structure ClusterInfo where
  id : String
  name : String
deriving DecidableEq

structure ClustersResp where
  clusters : List ClusterInfo
deriving DecidableEq

/-- The API oracle of the node pipeline. -/
structure NodeApi where
  nodesOf : String → HttpResp NodesResp
  graphQl : String → String → HttpResp GraphQlResp

/-- Lines 160-175: one CSV row for a node vulnerability. -/
def nodeRow (name env desc nodeName : String) (c : NodeCve) : List String :=
  [name, env, desc, nodeName, c.cve,
   if c.isFixable then "Fixable" else "Not Fixable",
   severityName c.severity, c.cvss, c.envImpact, c.impactScore,
   c.publishedOn, c.createdAt, c.link, c.summary]

/-- Lines 139-179: one node.  The GraphQL result is guarded by
`is not None`, so a non-200 response just means the node contributes no
rows and the loop moves on. -/
def processNode (api : NodeApi) (clusterId name env desc : String)
    (node : NodeInfo) : List (List String) :=
  match getJson (api.graphQl clusterId node.id) with
  | none => []
  | some g => g.nodeVulnerabilities.map (nodeRow name env desc node.name)

/-- Lines 107-179: the cluster loop.  `/nodes/{clusterId}` (line 128) is
not guarded: a non-200 response makes line 129 subscript `None`, raising
`TypeError` outside every handler — the loop dies there, keeping the rows
already flushed and processing no further cluster. -/
def processClusters (api : NodeApi) :
    List ClusterInfo → List (List String) × Option PyErr
  | [] => ([], none)
  | c :: rest =>
    match parseClusterNode c.name with
    | (name, env, desc) =>
      match getJson (api.nodesOf c.id) with
      | none => ([], some .typeError)
      | some nr =>
        match processClusters api rest with
        | (restRows, err) =>
          (nr.nodes.flatMap (processNode api c.id name env desc) ++ restRows, err)

/-- `main` of `generate-cves-by-nodes.py`: the CSV file is only created
when the `/clusters` call returned data (the `with open` at line 101 sits
inside the `is not None` guard of line 99); `none` models "no file
written at all".  On a crash the flushed prefix of the file survives,
with the uncaught exception in the second component. -/
def runNodePipeline (api : NodeApi) (listing : HttpResp ClustersResp) :
    Option (List (List String) × Option PyErr) :=
  match getJson listing with
  | none => none
  | some resp =>
    match processClusters api resp.clusters with
    | (rows, err) => some (NODE_CSV_HEADER :: rows, err)

/-- Claim C5 witness: one concrete merge into a one-entry state that
satisfies the invariant preserves it. -/
theorem claim_C5_witness :
    aggInv (mergeVuln
      [("CVE-1", ⟨⟨"CVE-1", "LOW_VULNERABILITY_SEVERITY", false, "5.0", none, none,
        "", "", ""⟩, ["ns1"], ["img1"]⟩)]
      "ns2" "img1"
      ⟨"CVE-1", "LOW_VULNERABILITY_SEVERITY", false, "5.0", none, none, "", "", ""⟩) :=
  (claim_C5_invariant.2.1
    [("CVE-1", ⟨⟨"CVE-1", "LOW_VULNERABILITY_SEVERITY", false, "5.0", none, none,
      "", "", ""⟩, ["ns1"], ["img1"]⟩)]
    "ns2" "img1"
    ⟨"CVE-1", "LOW_VULNERABILITY_SEVERITY", false, "5.0", none, none, "", "", ""⟩
    ⟨by decide, by decide⟩).1

/-- Claim C3 (amended): when the cluster-label match fails entirely, the
environment and descriptor default to the empty string and the failed
match itself raises nothing caught outside the bare `except`; but the
name is NOT defaulted: the node pipeline keeps the raw cluster string
(assigned before the parse), while the image pipeline's `clusterName`
variable keeps the value left by the most recent successfully parsed
deployment regardless of which cluster it belonged to — and when no
deployment has yet assigned it, its first use raises an uncaught
`NameError` and the image run dies.  (The claim as frozen is refuted by
`claim_C3_counterexample`.) -/
theorem claim_C3_amended :
    (∀ raw : String, clusterInfoSearch raw = none →
      parseClusterNode raw = (raw, "", "")) ∧
    (∀ (prev : Option String) (raw : String), clusterInfoSearch raw = none →
      parseClusterImage prev raw = (prev, "", "")) ∧
    (∀ (api : ImageApi) (st : ImageState) (d : Deployment),
      clusterInfoSearch d.cluster = none → st.lastName = none →
      (processDeployment api st d).1 = .error .nameError) ∧
    (∀ (api : ImageApi) (st : ImageState) (d : Deployment) (p : String),
      clusterInfoSearch d.cluster = none → st.lastName = some p →
      ∃ st', (processDeployment api st d).1 = .ok st' ∧ st'.lastName = some p) := by
  refine ⟨?_, ?_, ?_, ?_⟩
  · intro raw h
    simp [parseClusterNode, h]
  · intro prev raw h
    simp [parseClusterImage, h]
  · intro api st d h hlast
    have hp : parseClusterImage st.lastName d.cluster = (none, "", "") := by
      simp [parseClusterImage, h, hlast]
    unfold processDeployment
    rw [hp]
  · intro api st d p h hlast
    have hp : parseClusterImage st.lastName d.cluster = (some p, "", "") := by
      simp [parseClusterImage, h, hlast]
    unfold processDeployment
    rw [hp]
    cases hdd : getJson (api.deploymentDetail d.id) with
    | none => exact ⟨_, rfl, rfl⟩
    | some dd => exact ⟨_, rfl, rfl⟩

/-- Claim C3 counterexample: two deployments; the first (cluster "A",
label "alpha") parses; the second, for the new cluster "B" with the
unparseable label "_", is recorded with cluster name "alpha" — the stale
value of the loop variable, established for a DIFFERENT cluster — rather
than the empty string (and there was no previously established name for
cluster "B" to reuse). -/
theorem claim_C3_counterexample :
    clusterInfoSearch "_" = none ∧
    (processDeployments ⟨fun _ => .notOk 500, fun _ => .notOk 500⟩ ⟨[], none⟩
      [⟨"A", "alpha", "ns", "1", "dep1"⟩, ⟨"B", "_", "ns", "2", "dep2"⟩]).1
      = .ok ⟨[("A", ⟨"A", "alpha", "", "", []⟩), ("B", ⟨"B", "alpha", "", "", []⟩)],
          some "alpha"⟩ ∧
    ("alpha" : String) ≠ "" := by decide

/-- Claim C3 witness: the amended behaviour at concrete inputs — the node
parser keeps "_" as the name, the image parser reuses the carried
"alpha", and with nothing carried the deployment processing raises
`NameError`. -/
theorem claim_C3_witness :
    parseClusterNode "_" = ("_", "", "") ∧
    parseClusterImage (some "alpha") "_" = (some "alpha", "", "") ∧
    (processDeployment ⟨fun _ => .notOk 500, fun _ => .notOk 500⟩ ⟨[], none⟩
      ⟨"B", "_", "ns", "2", "dep2"⟩).1 = .error .nameError :=
  ⟨claim_C3_amended.1 "_" (by decide),
   claim_C3_amended.2.1 (some "alpha") "_" (by decide),
   claim_C3_amended.2.2.1 ⟨fun _ => .notOk 500, fun _ => .notOk 500⟩ ⟨[], none⟩
     ⟨"B", "_", "ns", "2", "dep2"⟩ (by decide) rfl⟩

/-- Claim C10: with the compiled-in flag false, deployments in openshift
namespaces are filtered out before inspection: the whole image-pipeline
run — output rows and detail-request log alike — equals the run on the
pre-filtered listing (so a filtered deployment triggers no fetch and
contributes no rows, namespaces, images or CVEs), and every deployment
that is inspected has a namespace not starting with "openshift". -/
theorem claim_C10_openshift_filtered :
    (∀ (api : ImageApi) (ds : List Deployment),
      runImagePipeline api (.ok ⟨ds⟩) =
        runImagePipeline api
          (.ok ⟨ds.filter fun d => !(pyStartsWith d.namespace_ "openshift")⟩)) ∧
    (∀ (ds : List Deployment), ∀ d ∈ deploymentsToBeInspected ds,
      pyStartsWith d.namespace_ "openshift" = false) := by
  have hfil : ∀ ds : List Deployment,
      deploymentsToBeInspected (ds.filter fun d => !(pyStartsWith d.namespace_ "openshift"))
        = deploymentsToBeInspected ds := by
    intro ds
    simp [deploymentsToBeInspected, IS_INCLUDE_OPENSHIFT_NAMESPACE,
      List.filter_filter, Bool.and_self]
  constructor
  · intro api ds
    simp only [runImagePipeline, getJson, hfil]
  · intro ds d hd
    simp only [deploymentsToBeInspected, IS_INCLUDE_OPENSHIFT_NAMESPACE,
      Bool.false_eq_true, if_false, List.mem_filter] at hd
    simpa using hd.2

/-- Claim C10 witness: in a listing with one openshift and one ordinary
deployment, the inspected one is the ordinary deployment and its
namespace does not start with "openshift". -/
theorem claim_C10_witness :
    (⟨"A", "alpha", "prod", "1", "dep1"⟩ : Deployment) ∈ deploymentsToBeInspected
      [⟨"A", "alpha", "prod", "1", "dep1"⟩, ⟨"B", "beta", "openshift-api", "2", "dep2"⟩] ∧
    pyStartsWith "prod" "openshift" = false :=
  ⟨by decide,
   claim_C10_openshift_filtered.2
     [⟨"A", "alpha", "prod", "1", "dep1"⟩, ⟨"B", "beta", "openshift-api", "2", "dep2"⟩]
     ⟨"A", "alpha", "prod", "1", "dep1"⟩ (by decide)⟩

/-- Claim C4 (amended): a non-200 response makes the fetch helper return
`None`; where the caller guards the result this means "no data" and the
run continues (a non-200 GraphQL reply costs only that node's rows; a
non-200 deployment detail only skips that deployment's containers; a
non-200 image detail aborts just that deployment through the `TypeError`
its `finally` clause raises, and the deployment loop goes on) — but a
non-200 response to `/nodes/{clusterId}` is subscripted without a guard
and outside every handler: the node run terminates right there and does
NOT continue with the next cluster (the frozen claim's "in particular"
case is refuted by `claim_C4_counterexample`). -/
theorem claim_C4_amended :
    (∀ (α : Type) (s : Nat), (@getJson α (.notOk s)) = none) ∧
    (∀ (api : NodeApi) (cid name env desc : String) (node : NodeInfo),
      getJson (api.graphQl cid node.id) = none →
      processNode api cid name env desc node = []) ∧
    (∀ (api : NodeApi) (c : ClusterInfo) (rest : List ClusterInfo) (s : Nat),
      api.nodesOf c.id = .notOk s →
      processClusters api (c :: rest) = ([], some .typeError)) ∧
    (∀ (m : List (String × CveDetail)) (ns img : String),
      (processContainer m ns img none).result = .error .typeError) ∧
    (∀ (api : ImageApi) (st : ImageState) (d : Deployment) (name env desc : String),
      parseClusterImage st.lastName d.cluster = (some name, env, desc) →
      ∃ st', (processDeployment api st d).1 = .ok st') := by
  refine ⟨?_, ?_, ?_, ?_, ?_⟩
  · intro α s
    rfl
  · intro api cid name env desc node h
    unfold processNode
    rw [h]
  · intro api c rest s h
    unfold processClusters
    rw [h]
    rfl
  · intro m ns img
    rfl
  · intro api st d name env desc h
    unfold processDeployment
    rw [h]
    cases hdd : getJson (api.deploymentDetail d.id) with
    | none => exact ⟨_, rfl⟩
    | some dd => exact ⟨_, rfl⟩

/-- Claim C4 counterexample: two clusters; `/nodes/c1` answers non-200
while `c2` has a node with one critical vulnerability.  The claim says
only `c1`'s work is aborted and the run continues with `c2`; the run in
fact dies on the unguarded `None["nodes"]` subscription with `TypeError`,
leaving only the header row — no row of `c2` is ever produced. -/
theorem claim_C4_counterexample :
    runNodePipeline
      ⟨fun cid => if cid == "c1" then .notOk 500 else .ok ⟨[⟨"n1", "node1"⟩]⟩,
       fun _ _ => .ok ⟨[⟨"CVE-9", true, "CRITICAL_VULNERABILITY_SEVERITY", "9.8",
         "0.42", "5.5", "p", "c", "l", "s"⟩]⟩⟩
      (.ok ⟨[⟨"c1", "alpha"⟩, ⟨"c2", "beta"⟩]⟩)
      = some ([NODE_CSV_HEADER], some .typeError) := by decide

/-- Claim C4 witness: the amended behaviour at concrete inputs — the
unguarded `/nodes` non-200 kills the cluster loop, while a guarded
GraphQL non-200 merely yields no rows for that node. -/
theorem claim_C4_witness :
    processClusters
      ⟨fun cid => if cid == "c1" then .notOk 500 else .ok ⟨[⟨"n1", "node1"⟩]⟩,
       fun _ _ => .ok ⟨[]⟩⟩
      [⟨"c1", "alpha"⟩, ⟨"c2", "beta"⟩] = ([], some .typeError) ∧
    processNode ⟨fun _ => .notOk 500, fun _ _ => .notOk 404⟩ "c" "n" "e" "d"
      ⟨"n1", "x"⟩ = [] :=
  ⟨claim_C4_amended.2.2.1
     ⟨fun cid => if cid == "c1" then .notOk 500 else .ok ⟨[⟨"n1", "node1"⟩]⟩,
      fun _ _ => .ok ⟨[]⟩⟩
     ⟨"c1", "alpha"⟩ [⟨"c2", "beta"⟩] 500 (by decide),
   claim_C4_amended.2.1 ⟨fun _ => .notOk 500, fun _ _ => .notOk 404⟩ "c" "n" "e" "d"
     ⟨"n1", "x"⟩ (by decide)⟩

/-- Claim C9 (amended): the image pipeline's CSV starts with the fixed
header on every run that completes — in particular a listing that
returned no data yields exactly the header-only file; the node pipeline
writes the header-first CSV whenever `/clusters` returned data, even with
zero clusters, but when that initial listing call yields no data it
creates no file at all (the frozen "both pipelines" claim is refuted by
`claim_C9_counterexample`). -/
theorem claim_C9_amended :
    (∀ (api : ImageApi) (listing : HttpResp DeploymentsResp) (rows : List (List String)),
      (runImagePipeline api listing).1 = .ok rows → rows.head? = some CSV_HEADER) ∧
    (∀ (api : ImageApi) (s : Nat),
      (runImagePipeline api (.notOk s)).1 = .ok [CSV_HEADER]) ∧
    (∀ (api : NodeApi) (resp : ClustersResp),
      ∃ rows err, runNodePipeline api (.ok resp) = some (NODE_CSV_HEADER :: rows, err)) ∧
    (∀ (api : NodeApi) (s : Nat), runNodePipeline api (.notOk s) = none) := by
  refine ⟨?_, ?_, ?_, ?_⟩
  · intro api listing rows h
    unfold runImagePipeline at h
    cases hls : getJson listing with
    | none =>
      rw [hls] at h
      have h' : Except.ok (imageCsvRows ([] : List (String × ClusterDetail)))
          = Except.ok rows := h
      injection h' with h2
      rw [← h2]
      rfl
    | some resp =>
      rw [hls] at h
      have h' : (match processDeployments api ⟨[], none⟩
          (deploymentsToBeInspected resp.deployments) with
        | (Except.error e, log) => (Except.error e, log)
        | (Except.ok st, log) => (Except.ok (imageCsvRows st.clusters), log)).1
          = Except.ok rows := h
      cases hpd : processDeployments api ⟨[], none⟩
          (deploymentsToBeInspected resp.deployments) with
      | mk res log =>
        rw [hpd] at h'
        cases res with
        | error e => exact absurd h' (by simp)
        | ok st =>
          injection h' with h2
          rw [← h2]
          rfl
  · intro api s
    simp [runImagePipeline, getJson, imageCsvRows, sortClusters]
  · intro api resp
    exact ⟨(processClusters api resp.clusters).1, (processClusters api resp.clusters).2, rfl⟩
  · intro api s
    rfl

/-- Claim C9 counterexample: when the initial `/clusters` call yields no
data, the node pipeline writes no file at all — there is no header-only
output. -/
theorem claim_C9_counterexample :
    runNodePipeline ⟨fun _ => .notOk 503, fun _ _ => .notOk 503⟩ (.notOk 503) = none := rfl

/-- Claim C9 witness: the image pipeline on a failed listing produces
exactly the header-only file, whose first row is the header. -/
theorem claim_C9_witness :
    (runImagePipeline ⟨fun _ => .notOk 500, fun _ => .notOk 500⟩ (.notOk 500)).1
      = .ok [CSV_HEADER] ∧
    ([CSV_HEADER] : List (List String)).head? = some CSV_HEADER := by
  have h1 := claim_C9_amended.2.1 ⟨fun _ => .notOk 500, fun _ => .notOk 500⟩ 500
  exact ⟨h1, claim_C9_amended.1 ⟨fun _ => .notOk 500, fun _ => .notOk 500⟩
    (.notOk 500) [CSV_HEADER] h1⟩

theorem keyLe_total (a b : String × String) : (keyLe a b || keyLe b a) = true := by
  simp only [keyLe, Bool.or_eq_true, Bool.and_eq_true, decide_eq_true_eq, beq_iff_eq]
  rcases lt_trichotomy a.1 b.1 with h | h | h
  · exact Or.inl (Or.inl h)
  · rcases le_total a.2 b.2 with h2 | h2
    · exact Or.inl (Or.inr ⟨h, h2⟩)
    · exact Or.inr (Or.inr ⟨h.symm, h2⟩)
  · exact Or.inr (Or.inl h)

theorem keyLe_trans (a b c : String × String) (h1 : keyLe a b = true)
    (h2 : keyLe b c = true) : keyLe a c = true := by
  simp only [keyLe, Bool.or_eq_true, Bool.and_eq_true, decide_eq_true_eq,
    beq_iff_eq] at h1 h2 ⊢
  rcases h1 with h1 | ⟨e1, l1⟩
  · rcases h2 with h2 | ⟨e2, l2⟩
    · exact Or.inl (lt_trans h1 h2)
    · exact Or.inl (by rw [← e2]; exact h1)
  · rcases h2 with h2 | ⟨e2, l2⟩
    · exact Or.inl (by rw [e1]; exact h2)
    · exact Or.inr ⟨e1.trans e2, le_trans l1 l2⟩

/-- Claim C8: the image report is the header row followed by each
cluster's rows, clusters in ascending `(environment, clusterName)` order
— for any two clusters one of whose row blocks precedes the other's, the
first key is lexicographically at most the second (Python tuple
comparison) — and within one cluster the rows follow the CVE mapping's
iteration order.  Nothing beyond the two-key tuple is part of the sort
contract. -/
theorem claim_C8_report_order (m : List (String × ClusterDetail)) :
    imageCsvRows m = CSV_HEADER :: ((sortClusters m).flatMap fun kv =>
      kv.2.cveDetails.map fun p => rowOf kv.2 p.1 p.2) ∧
    (sortClusters m).Pairwise
      (fun a b => keyLe (clusterSortKey a.2) (clusterSortKey b.2) = true) := by
  refine ⟨rfl, ?_⟩
  unfold sortClusters
  exact List.sorted_mergeSort
    (fun a b c h1 h2 => keyLe_trans (clusterSortKey a.2) (clusterSortKey b.2)
      (clusterSortKey c.2) h1 h2)
    (fun a b => keyLe_total (clusterSortKey a.2) (clusterSortKey b.2)) m

